import Mathlib

/-!
Shallow embedding of the EXIF GPS extraction and webhook signature
verification core of the Box-ArcGIS service (`src/main.py`).

Modelling conventions:
- Python dictionaries become association lists `List (String × ExifVal)`;
  `pyDictGet` is dictionary lookup (first matching key).
- Python values appearing in the EXIF tag mapping become `ExifVal`:
  strings, sequences of numbers, or nested dictionaries.
- Numeric values are modelled as exact rationals `ℚ` (EXIF stores GPS
  components as rationals; Python's float arithmetic is idealised as
  exact rational arithmetic).
- A Python function that can raise becomes a function into
  `Except PyError _`; each raising construct (`d[k]` on a missing key,
  subscripting a non-subscriptable value, `None.encode()`,
  `compare_digest(_, None)`) maps to the corresponding error.
- The HMAC-SHA256 hex digest (`hmac.new(key, msg, sha256).hexdigest()`)
  is an external-library primitive; it is passed to `verify_signature`
  as an explicit function argument `hmacSha256Hex`, so theorems about
  `verify_signature` hold for the real digest function in particular.
-/

namespace BoxArcGIS

/-- Python exceptions that the embedded functions can raise. -/
inductive PyError where
  | keyError (key : String)
  | indexError
  | typeError
  | attributeError
deriving Repr, DecidableEq

/-- A value stored in the EXIF tag mapping: a string (e.g. a hemisphere
reference letter), a sequence of numbers (a sexagesimal coordinate), or a
nested mapping (the GPSInfo sub-block). -/
inductive ExifVal where
  | str (v : String)
  | nums (v : List ℚ)
  | dict (v : List (String × ExifVal))

/-- Python dictionary lookup `d.get(k)`: the value at the first matching
key, if any. -/
def pyDictGet (d : List (String × ExifVal)) (k : String) : Option ExifVal :=
  (d.find? (fun p => p.1 == k)).map (fun p => p.2)

/-- Python subscript `d[k]` on a dictionary: the value at `k`, or a
`KeyError` when the key is absent. -/
def dictGetItem (d : List (String × ExifVal)) (k : String) :
    Except PyError ExifVal :=
  match pyDictGet d k with
  | some v => Except.ok v
  | none => Except.error (PyError.keyError k)

/-- Python `v == s` for a string literal `s`: true exactly when `v` is the
string `s` (comparing a non-string to a string is `False`, not an error). -/
def isStrEq : ExifVal → String → Bool
  | ExifVal.str t, s => t == s
  | _, _ => false

/-- Subscripting `v[k]` with a string key requires `v` to be a dictionary;
on a string or a list Python raises `TypeError`. -/
def asDict : ExifVal → Except PyError (List (String × ExifVal))
  | ExifVal.dict d => Except.ok d
  | _ => Except.error PyError.typeError

/-- `convert_to_degrees(value)` from `src/main.py` lines 73-80:
`d = float(value[0]); m = float(value[1]); s = float(value[2]);
return d + (m / 60.0) + (s / 3600.0)`.
Subscripting a non-sequence raises `TypeError`; a sequence shorter than
three elements raises `IndexError`. -/
def convert_to_degrees : ExifVal → Except PyError ℚ
  | ExifVal.nums l =>
    match l.get? 0, l.get? 1, l.get? 2 with
    | some d, some m, some s => Except.ok (d + (m / 60) + (s / 3600))
    | _, _, _ => Except.error PyError.indexError
  | _ => Except.error PyError.typeError

/-- `get_lat_lon(exif_data)` from `src/main.py` lines 51-71. The Python
code tests `"GPSInfo" in exif_data`; inside that branch it subscripts the
sub-block with the four required keys (raising `KeyError` when one is
missing), converts latitude then longitude via `convert_to_degrees`, and
negates each coordinate whose reference is not exactly `"N"` / `"E"`.
Each nested `match` propagates the exception a raising subscript or
conversion produces, in the order the Python statements execute. -/
def get_lat_lon (exif_data : List (String × ExifVal)) :
    Except PyError (Option ℚ × Option ℚ) :=
  match pyDictGet exif_data "GPSInfo" with
  | none => Except.ok (none, none)
  | some gpsVal =>
    match asDict gpsVal with
    | Except.error err => Except.error err
    | Except.ok gps_info =>
    match dictGetItem gps_info "GPSLatitude" with
    | Except.error err => Except.error err
    | Except.ok gps_latitude =>
    match dictGetItem gps_info "GPSLatitudeRef" with
    | Except.error err => Except.error err
    | Except.ok gps_latitude_ref =>
    match dictGetItem gps_info "GPSLongitude" with
    | Except.error err => Except.error err
    | Except.ok gps_longitude =>
    match dictGetItem gps_info "GPSLongitudeRef" with
    | Except.error err => Except.error err
    | Except.ok gps_longitude_ref =>
    match convert_to_degrees gps_latitude with
    | Except.error err => Except.error err
    | Except.ok lat0 =>
    match convert_to_degrees gps_longitude with
    | Except.error err => Except.error err
    | Except.ok lon0 =>
      Except.ok
        (some (if !(isStrEq gps_latitude_ref "N") then 0 - lat0 else lat0),
         some (if !(isStrEq gps_longitude_ref "E") then 0 - lon0 else lon0))

/-- `verify_signature(payload, signature)` from `src/main.py` lines 82-87:
`expected = hmac.new(BOX_WEBHOOK_SECRET.encode(), str(payload).encode(),
hashlib.sha256).hexdigest(); return hmac.compare_digest(expected, signature)`.
`secret` is the environment value `BOX_WEBHOOK_SECRET` (`none` when the
variable is unset, in which case `.encode()` raises `AttributeError`);
`payload` stands for the string `str(payload)`; `signature` is the request
header (`none` when absent, in which case `compare_digest` raises
`TypeError`). `compare_digest` on two strings is string equality. -/
def verify_signature (hmacSha256Hex : String → String → String)
    (secret : Option String) (payload : String) (signature : Option String) :
    Except PyError Bool :=
  match secret with
  | none => Except.error PyError.attributeError
  | some key =>
    match signature with
    | none => Except.error PyError.typeError
    | some sig => Except.ok (hmacSha256Hex key payload == sig)

/-- A concrete stand-in digest function, used only to instantiate theorems
that are universally quantified over the external HMAC-SHA256 primitive. -/
def sampleHmacHex : String → String → String :=
  fun key msg => key ++ "|" ++ msg

/-- The Empire State Building scenario from the spec: full GPS sub-block
with references "N" / "W". -/
def gpsTagsNW : List (String × ExifVal) :=
  [("GPSInfo", ExifVal.dict
    [("GPSLatitude", ExifVal.nums [40, 44, 54.36]),
     ("GPSLatitudeRef", ExifVal.str "N"),
     ("GPSLongitude", ExifVal.nums [73, 59, 8.76]),
     ("GPSLongitudeRef", ExifVal.str "W")])]

/-- The same magnitudes with references "S" / "E". -/
def gpsTagsSE : List (String × ExifVal) :=
  [("GPSInfo", ExifVal.dict
    [("GPSLatitude", ExifVal.nums [40, 44, 54.36]),
     ("GPSLatitudeRef", ExifVal.str "S"),
     ("GPSLongitude", ExifVal.nums [73, 59, 8.76]),
     ("GPSLongitudeRef", ExifVal.str "E")])]

/-- A GPS sub-block that is present but lacks the "GPSLatitude" key. -/
def gpsTagsMissingLat : List (String × ExifVal) :=
  [("GPSInfo", ExifVal.dict
    [("GPSLatitudeRef", ExifVal.str "N"),
     ("GPSLongitude", ExifVal.nums [73, 59, 8.76]),
     ("GPSLongitudeRef", ExifVal.str "W")])]

/-- `gpsTagsNW` with an unrelated top-level tag and an unrelated GPS
sub-tag added; the four required keys are unchanged. -/
def gpsTagsNWExtra : List (String × ExifVal) :=
  [("Model", ExifVal.str "X100"),
   ("GPSInfo", ExifVal.dict
    [("GPSLatitude", ExifVal.nums [40, 44, 54.36]),
     ("GPSLatitudeRef", ExifVal.str "N"),
     ("GPSLongitude", ExifVal.nums [73, 59, 8.76]),
     ("GPSLongitudeRef", ExifVal.str "W"),
     ("GPSAltitude", ExifVal.nums [320])])]

/-- Helper: on a GPS sub-block containing all four required keys whose
coordinate values convert successfully, `get_lat_lon` returns the two
converted magnitudes, each negated unless its reference is exactly the
expected hemisphere letter. -/
theorem get_lat_lon_full (e g : List (String × ExifVal))
    (vlat vlatref vlon vlonref : ExifVal) (la lo : ℚ)
    (hg : pyDictGet e "GPSInfo" = some (ExifVal.dict g))
    (h1 : pyDictGet g "GPSLatitude" = some vlat)
    (h2 : pyDictGet g "GPSLatitudeRef" = some vlatref)
    (h3 : pyDictGet g "GPSLongitude" = some vlon)
    (h4 : pyDictGet g "GPSLongitudeRef" = some vlonref)
    (hla : convert_to_degrees vlat = Except.ok la)
    (hlo : convert_to_degrees vlon = Except.ok lo) :
    get_lat_lon e = Except.ok
      (some (if isStrEq vlatref "N" then la else 0 - la),
       some (if isStrEq vlonref "E" then lo else 0 - lo)) := by
  unfold get_lat_lon
  simp only [hg, asDict, dictGetItem, h1, h2, h3, h4, hla, hlo]
  cases hb : isStrEq vlatref "N" <;> cases hc : isStrEq vlonref "E" <;>
    simp [hb, hc]

/-- Helper: `isStrEq v r` holds exactly when the value `v` is the string
`r` — strict string equality, never case-insensitive, false on
non-strings. -/
theorem isStrEq_iff (v : ExifVal) (r : String) :
    isStrEq v r = true ↔ v = ExifVal.str r := by
  cases v <;> simp [isStrEq]

/-- C5: for every input tag mapping, the pair returned by `get_lat_lon` is
either both-present or both-absent — never exactly one coordinate. -/
theorem get_lat_lon_both_or_neither (e : List (String × ExifVal))
    (res : Option ℚ × Option ℚ) (h : get_lat_lon e = Except.ok res) :
    (res.1.isSome ∧ res.2.isSome) ∨ (res.1 = none ∧ res.2 = none) := by
  unfold get_lat_lon at h
  repeat any_goals split at h
  all_goals simp only [Except.ok.injEq, reduceCtorEq] at h
  all_goals (subst h; simp)

/-- Witness for C5 at the empty tag mapping. -/
theorem get_lat_lon_both_or_neither_witness :
    ((none : Option ℚ), (none : Option ℚ)).1.isSome ∧
        ((none : Option ℚ), (none : Option ℚ)).2.isSome ∨
      ((none : Option ℚ), (none : Option ℚ)).1 = none ∧
        ((none : Option ℚ), (none : Option ℚ)).2 = none :=
  get_lat_lon_both_or_neither [] (none, none) rfl

/-- C6: for every tag mapping with no "GPSInfo" key, `get_lat_lon` returns
`(None, None)` and raises no exception. -/
theorem get_lat_lon_no_gpsinfo (e : List (String × ExifVal))
    (h : pyDictGet e "GPSInfo" = none) :
    get_lat_lon e = Except.ok (none, none) := by
  unfold get_lat_lon
  rw [h]

/-- Witness for C6 at the empty tag mapping (and a mapping with an
unrelated tag). -/
theorem get_lat_lon_no_gpsinfo_witness :
    get_lat_lon [] = Except.ok (none, none) ∧
      get_lat_lon [("Model", ExifVal.str "X")] = Except.ok (none, none) :=
  ⟨get_lat_lon_no_gpsinfo [] rfl,
   get_lat_lon_no_gpsinfo [("Model", ExifVal.str "X")] rfl⟩

/-- Counterexample to C2 as stated: with the webhook secret unset
(`BOX_WEBHOOK_SECRET = None`), `verify_signature` does not return `false` —
it raises `AttributeError` (from `None.encode()`). -/
theorem verify_signature_unset_secret_raises :
    verify_signature sampleHmacHex none "payload" (some "deadbeef") =
      Except.error PyError.attributeError := rfl

/-- C2 (amended): `verify_signature` raises `AttributeError` when the
secret is unset and `TypeError` when the signature header is missing; it
is total (returns a boolean, never raises) exactly when the secret is set
and a signature string is supplied, and then the boolean is the equality
of the expected digest with the supplied signature. -/
theorem verify_signature_raise_behaviour (hm : String → String → String)
    (payload : String) :
    (∀ sig : Option String,
        verify_signature hm none payload sig =
          Except.error PyError.attributeError) ∧
    (∀ key : String,
        verify_signature hm (some key) payload none =
          Except.error PyError.typeError) ∧
    (∀ key sig : String,
        verify_signature hm (some key) payload (some sig) =
          Except.ok (hm key payload == sig)) :=
  ⟨fun _ => rfl, fun _ => rfl, fun _ _ => rfl⟩

/-- C7: with a configured secret, `verify_signature` returns `true` iff the
supplied signature equals the hex HMAC-SHA256 digest of the payload under
the secret (for any digest function, hence for the real one), and returns
`false` for any other signature — in particular any single-bit variation. -/
theorem verify_signature_exact_match (hm : String → String → String)
    (key payload sig : String) :
    (verify_signature hm (some key) payload (some sig) = Except.ok true ↔
      sig = hm key payload) ∧
    (sig ≠ hm key payload →
      verify_signature hm (some key) payload (some sig) = Except.ok false) := by
  unfold verify_signature
  constructor
  · constructor
    · intro h
      have h' : (hm key payload == sig) = true := by simpa using h
      exact (eq_of_beq h').symm
    · intro h
      subst h
      simp
  · intro h
    have h' : (hm key payload == sig) = false := by
      rw [beq_eq_false_iff_ne]
      exact fun h'' => h h''.symm
    simp [h']

/-- Witness for C7 at a concrete digest function, secret and payload:
the correct signature verifies, and a one-character (hence one-bit-or-more)
variation is rejected. -/
theorem verify_signature_exact_match_witness :
    ((verify_signature sampleHmacHex (some "k") "p" (some "k|p") =
        Except.ok true ↔ "k|p" = sampleHmacHex "k" "p") ∧
      ("k|p" ≠ sampleHmacHex "k" "p" →
        verify_signature sampleHmacHex (some "k") "p" (some "k|p") =
          Except.ok false)) ∧
    ((verify_signature sampleHmacHex (some "k") "p" (some "k|q") =
        Except.ok true ↔ "k|q" = sampleHmacHex "k" "p") ∧
      ("k|q" ≠ sampleHmacHex "k" "p" →
        verify_signature sampleHmacHex (some "k") "p" (some "k|q") =
          Except.ok false)) :=
  ⟨verify_signature_exact_match sampleHmacHex "k" "p" "k|p",
   verify_signature_exact_match sampleHmacHex "k" "p" "k|q"⟩

/-- C8: `verify_signature` is deterministic — two invocations with the
same secret, payload and signature produce the same result (the embedding
is a pure function; the Python function reads only its arguments and the
fixed module-level secret, modelled here as the explicit `secret`
argument). -/
theorem verify_signature_deterministic (hm : String → String → String)
    (secret secret' : Option String) (payload payload' : String)
    (sig sig' : Option String)
    (h1 : secret = secret') (h2 : payload = payload') (h3 : sig = sig') :
    verify_signature hm secret payload sig =
      verify_signature hm secret' payload' sig' := by
  subst h1; subst h2; subst h3; rfl

/-- Witness for C8 at concrete arguments. -/
theorem verify_signature_deterministic_witness :
    verify_signature sampleHmacHex (some "k") "p" (some "s") =
      verify_signature sampleHmacHex (some "k") "p" (some "s") :=
  verify_signature_deterministic sampleHmacHex (some "k") (some "k") "p" "p"
    (some "s") (some "s") rfl rfl rfl

/-- C3: for every 3-element sexagesimal sequence `(d, m, s)` with
`m, s ≥ 0`, `convert_to_degrees` returns exactly `d + m/60 + s/3600`, and
the identical shared routine is used for both the latitude and the
longitude path of `get_lat_lon` (both magnitudes below are whatever
`convert_to_degrees` returns). -/
theorem convert_to_degrees_formula (d m s : ℚ) (h_m : 0 ≤ m) (h_s : 0 ≤ s) :
    convert_to_degrees (ExifVal.nums [d, m, s]) =
      Except.ok (d + m / 60 + s / 3600) ∧
    (∀ (e g : List (String × ExifVal)) (vlat vlatref vlon vlonref : ExifVal)
        (la lo : ℚ),
      pyDictGet e "GPSInfo" = some (ExifVal.dict g) →
      pyDictGet g "GPSLatitude" = some vlat →
      pyDictGet g "GPSLatitudeRef" = some vlatref →
      pyDictGet g "GPSLongitude" = some vlon →
      pyDictGet g "GPSLongitudeRef" = some vlonref →
      convert_to_degrees vlat = Except.ok la →
      convert_to_degrees vlon = Except.ok lo →
      get_lat_lon e = Except.ok
        (some (if isStrEq vlatref "N" then la else 0 - la),
         some (if isStrEq vlonref "E" then lo else 0 - lo))) := by
  constructor
  · simp [convert_to_degrees]
  · intro e g vlat vlatref vlon vlonref la lo hg h1 h2 h3 h4 hla hlo
    exact get_lat_lon_full e g vlat vlatref vlon vlonref la lo
      hg h1 h2 h3 h4 hla hlo

/-- Witness for C3 at `(40, 44, 54.36)` and the concrete NW tag mapping. -/
theorem convert_to_degrees_formula_witness :
    convert_to_degrees (ExifVal.nums [40, 44, 54.36]) =
      Except.ok (40 + (44 : ℚ) / 60 + (54.36 : ℚ) / 3600) ∧
    (∀ (e g : List (String × ExifVal)) (vlat vlatref vlon vlonref : ExifVal)
        (la lo : ℚ),
      pyDictGet e "GPSInfo" = some (ExifVal.dict g) →
      pyDictGet g "GPSLatitude" = some vlat →
      pyDictGet g "GPSLatitudeRef" = some vlatref →
      pyDictGet g "GPSLongitude" = some vlon →
      pyDictGet g "GPSLongitudeRef" = some vlonref →
      convert_to_degrees vlat = Except.ok la →
      convert_to_degrees vlon = Except.ok lo →
      get_lat_lon e = Except.ok
        (some (if isStrEq vlatref "N" then la else 0 - la),
         some (if isStrEq vlonref "E" then lo else 0 - lo))) :=
  convert_to_degrees_formula 40 44 54.36 (by norm_num) (by norm_num)

/-- C4: on a GPS sub-block with all four keys, the latitude is unchanged
exactly when the latitude reference is the string "N" and negated for any
other value, and symmetrically for "E"/longitude; the comparison is strict
string equality (`isStrEq v r = true ↔ v = ExifVal.str r`), so "S",
lowercase "n" and the empty string all negate. -/
theorem get_lat_lon_hemisphere_sign (e g : List (String × ExifVal))
    (vlat vlatref vlon vlonref : ExifVal) (la lo : ℚ)
    (hg : pyDictGet e "GPSInfo" = some (ExifVal.dict g))
    (h1 : pyDictGet g "GPSLatitude" = some vlat)
    (h2 : pyDictGet g "GPSLatitudeRef" = some vlatref)
    (h3 : pyDictGet g "GPSLongitude" = some vlon)
    (h4 : pyDictGet g "GPSLongitudeRef" = some vlonref)
    (hla : convert_to_degrees vlat = Except.ok la)
    (hlo : convert_to_degrees vlon = Except.ok lo) :
    get_lat_lon e = Except.ok
      (some (if isStrEq vlatref "N" then la else 0 - la),
       some (if isStrEq vlonref "E" then lo else 0 - lo)) ∧
    (∀ (v : ExifVal) (r : String), isStrEq v r = true ↔ v = ExifVal.str r) ∧
    isStrEq (ExifVal.str "S") "N" = false ∧
    isStrEq (ExifVal.str "n") "N" = false ∧
    isStrEq (ExifVal.str "") "N" = false ∧
    isStrEq (ExifVal.str "N") "N" = true ∧
    isStrEq (ExifVal.str "W") "E" = false := by
  refine ⟨?_, isStrEq_iff, rfl, rfl, rfl, rfl, rfl⟩
  exact get_lat_lon_full e g vlat vlatref vlon vlonref la lo
    hg h1 h2 h3 h4 hla hlo

/-- Witness for C4: the NW scenario mapping, whose latitude reference "N"
leaves the latitude unchanged and whose longitude reference "W" negates
the longitude. -/
theorem get_lat_lon_hemisphere_sign_witness :
    (get_lat_lon gpsTagsNW = Except.ok
      (some (if isStrEq (ExifVal.str "N") "N" then (1222453 : ℚ) / 30000
             else 0 - (1222453 : ℚ) / 30000),
       some (if isStrEq (ExifVal.str "W") "E" then (2219573 : ℚ) / 30000
             else 0 - (2219573 : ℚ) / 30000)) ∧
    (∀ (v : ExifVal) (r : String), isStrEq v r = true ↔ v = ExifVal.str r) ∧
    isStrEq (ExifVal.str "S") "N" = false ∧
    isStrEq (ExifVal.str "n") "N" = false ∧
    isStrEq (ExifVal.str "") "N" = false ∧
    isStrEq (ExifVal.str "N") "N" = true ∧
    isStrEq (ExifVal.str "W") "E" = false) :=
  get_lat_lon_hemisphere_sign gpsTagsNW
    [("GPSLatitude", ExifVal.nums [40, 44, 54.36]),
     ("GPSLatitudeRef", ExifVal.str "N"),
     ("GPSLongitude", ExifVal.nums [73, 59, 8.76]),
     ("GPSLongitudeRef", ExifVal.str "W")]
    (ExifVal.nums [40, 44, 54.36]) (ExifVal.str "N")
    (ExifVal.nums [73, 59, 8.76]) (ExifVal.str "W")
    (1222453 / 30000) (2219573 / 30000)
    rfl rfl rfl rfl rfl
    (by simp [convert_to_degrees]; norm_num)
    (by simp [convert_to_degrees]; norm_num)

/-- C9: the NW scenario yields approximately `(40.7484, -73.9858)` and the
same magnitudes with references "S"/"E" yield the negations, approximately
`(-40.7484, 73.9858)`. -/
theorem get_lat_lon_scenario_nyc :
    get_lat_lon gpsTagsNW =
      Except.ok (some ((1222453 : ℚ) / 30000), some (0 - (2219573 : ℚ) / 30000)) ∧
    get_lat_lon gpsTagsSE =
      Except.ok (some (0 - (1222453 : ℚ) / 30000), some ((2219573 : ℚ) / 30000)) ∧
    |(1222453 : ℚ) / 30000 - 40.7484| < 1 / 1000 ∧
    |(0 - (2219573 : ℚ) / 30000) - (-73.9858)| < 1 / 1000 := by
  refine ⟨?_, ?_, ?_, ?_⟩
  · simp [get_lat_lon, gpsTagsNW, asDict, dictGetItem, pyDictGet,
      convert_to_degrees, isStrEq]
    norm_num
  · simp [get_lat_lon, gpsTagsSE, asDict, dictGetItem, pyDictGet,
      convert_to_degrees, isStrEq]
    norm_num
  · rw [abs_sub_lt_iff]; constructor <;> norm_num
  · rw [abs_sub_lt_iff]; constructor <;> norm_num

/-- C10: on tag mappings whose GPS sub-blocks agree on the four required
keys (all present), `get_lat_lon` returns the same pair regardless of any
other tags in the mapping or other sub-tags in the GPS sub-block. -/
theorem get_lat_lon_depends_only_on_gps_keys
    (e₁ e₂ g₁ g₂ : List (String × ExifVal))
    (hg₁ : pyDictGet e₁ "GPSInfo" = some (ExifVal.dict g₁))
    (hg₂ : pyDictGet e₂ "GPSInfo" = some (ExifVal.dict g₂))
    (hp : (pyDictGet g₁ "GPSLatitude").isSome = true ∧
          (pyDictGet g₁ "GPSLatitudeRef").isSome = true ∧
          (pyDictGet g₁ "GPSLongitude").isSome = true ∧
          (pyDictGet g₁ "GPSLongitudeRef").isSome = true)
    (hlat : pyDictGet g₁ "GPSLatitude" = pyDictGet g₂ "GPSLatitude")
    (hlatr : pyDictGet g₁ "GPSLatitudeRef" = pyDictGet g₂ "GPSLatitudeRef")
    (hlon : pyDictGet g₁ "GPSLongitude" = pyDictGet g₂ "GPSLongitude")
    (hlonr : pyDictGet g₁ "GPSLongitudeRef" = pyDictGet g₂ "GPSLongitudeRef") :
    get_lat_lon e₁ = get_lat_lon e₂ := by
  unfold get_lat_lon
  rw [hg₁, hg₂]
  simp only [asDict, dictGetItem, hlat, hlatr, hlon, hlonr]

/-- Witness for C10: adding an unrelated top-level tag and an unrelated
GPS sub-tag does not change the result. -/
theorem get_lat_lon_depends_only_on_gps_keys_witness :
    get_lat_lon gpsTagsNWExtra = get_lat_lon gpsTagsNW :=
  get_lat_lon_depends_only_on_gps_keys gpsTagsNWExtra gpsTagsNW
    [("GPSLatitude", ExifVal.nums [40, 44, 54.36]),
     ("GPSLatitudeRef", ExifVal.str "N"),
     ("GPSLongitude", ExifVal.nums [73, 59, 8.76]),
     ("GPSLongitudeRef", ExifVal.str "W"),
     ("GPSAltitude", ExifVal.nums [320])]
    [("GPSLatitude", ExifVal.nums [40, 44, 54.36]),
     ("GPSLatitudeRef", ExifVal.str "N"),
     ("GPSLongitude", ExifVal.nums [73, 59, 8.76]),
     ("GPSLongitudeRef", ExifVal.str "W")]
    rfl rfl ⟨rfl, rfl, rfl, rfl⟩ rfl rfl rfl rfl

/-- Counterexample to C1 as stated: on a tag mapping whose GPS sub-block
is present but lacks "GPSLatitude", `get_lat_lon` does not return the
"not found" result — it raises `KeyError("GPSLatitude")`. -/
theorem get_lat_lon_missing_key_cex :
    get_lat_lon gpsTagsMissingLat =
      Except.error (PyError.keyError "GPSLatitude") ∧
    get_lat_lon gpsTagsMissingLat ≠ Except.ok (none, none) := by
  have h : get_lat_lon gpsTagsMissingLat =
      Except.error (PyError.keyError "GPSLatitude") := rfl
  refine ⟨h, ?_⟩
  rw [h]
  intro hc
  exact Except.noConfusion hc

/-- C1 (amended): if the GPS sub-block is present but any one of the four
required keys is missing, `get_lat_lon` raises a `KeyError` naming one of
the four required keys (the first missing one in lookup order) instead of
returning the "not found" result. -/
theorem get_lat_lon_missing_key_raises (e g : List (String × ExifVal))
    (hg : pyDictGet e "GPSInfo" = some (ExifVal.dict g))
    (hmiss : pyDictGet g "GPSLatitude" = none ∨
             pyDictGet g "GPSLatitudeRef" = none ∨
             pyDictGet g "GPSLongitude" = none ∨
             pyDictGet g "GPSLongitudeRef" = none) :
    ∃ k, get_lat_lon e = Except.error (PyError.keyError k) ∧
      (k = "GPSLatitude" ∨ k = "GPSLatitudeRef" ∨
       k = "GPSLongitude" ∨ k = "GPSLongitudeRef") := by
  cases h1 : pyDictGet g "GPSLatitude" with
  | none =>
    exact ⟨"GPSLatitude",
      by simp [get_lat_lon, hg, asDict, dictGetItem, h1], by simp⟩
  | some v1 =>
    cases h2 : pyDictGet g "GPSLatitudeRef" with
    | none =>
      exact ⟨"GPSLatitudeRef",
        by simp [get_lat_lon, hg, asDict, dictGetItem, h1, h2], by simp⟩
    | some v2 =>
      cases h3 : pyDictGet g "GPSLongitude" with
      | none =>
        exact ⟨"GPSLongitude",
          by simp [get_lat_lon, hg, asDict, dictGetItem, h1, h2, h3], by simp⟩
      | some v3 =>
        cases h4 : pyDictGet g "GPSLongitudeRef" with
        | none =>
          exact ⟨"GPSLongitudeRef",
            by simp [get_lat_lon, hg, asDict, dictGetItem, h1, h2, h3, h4],
            by simp⟩
        | some v4 =>
          rcases hmiss with h | h | h | h <;> simp_all

/-- Witness for C1 (amended) at the concrete sub-block missing
"GPSLatitude". -/
theorem get_lat_lon_missing_key_raises_witness :
    ∃ k, get_lat_lon gpsTagsMissingLat =
        Except.error (PyError.keyError k) ∧
      (k = "GPSLatitude" ∨ k = "GPSLatitudeRef" ∨
       k = "GPSLongitude" ∨ k = "GPSLongitudeRef") :=
  get_lat_lon_missing_key_raises gpsTagsMissingLat
    [("GPSLatitudeRef", ExifVal.str "N"),
     ("GPSLongitude", ExifVal.nums [73, 59, 8.76]),
     ("GPSLongitudeRef", ExifVal.str "W")]
    rfl (Or.inl rfl)

end BoxArcGIS
